import Mathlib

/-!
Verification development for the window-layout management plugin
(`spyder/plugins/layout/plugin.py`).

The plugin is glue code over a Qt main window: it persists and restores
dock-widget arrangements, handles maximize/restore of panes, fullscreen
toggling and population of the panes menu.  We give a shallow embedding of
the plugin state and translate each method of the `Layout` class into a
state-transforming Lean function.  Qt primitives are modelled explicitly:

* `QMainWindow.saveState`/`restoreState` work on a blob (`QtWindowState`)
  carrying an abstract dock/toolbar arrangement, the visibility of every
  dockwidget (listed in plugin order) and the version number that Qt embeds
  in the blob; `restoreState` succeeds exactly when the embedded version
  matches the requested one and is a no-op otherwise.
* The window manager state (normal / maximized / fullscreen) is a three-way
  enumeration; `showNormal`, `showMaximized`, `showFullScreen` and
  `setWindowState` assign it.
* The preferences store (`get_conf`/`set_conf`) is a typed map from
  (section, option) pairs; a missing key corresponds to a raised
  `configparser.NoOptionError`.
* Python code that raises an uncaught exception is modelled by functions
  returning `Option`/`Except`, with `none`/`error` for the exceptional exit.
* Calls whose effect lives in code outside this module (the container's
  `critical_message`, `setup_default_layouts`' interaction with the layout
  classes, the toolbar plugin, the recursive `setup_layout`) are recorded as
  events in an event log carried by the state.

Identity of plugin objects is modelled by their index in the dockable
plugins list.
-/

namespace SpyderLayout

/-- Display state of the Qt main window. -/
inductive WinState
  | normal
  | maximized
  | fullScreen
deriving DecidableEq

/-- Rectangle geometry as used by QRect: left, top, width, height. -/
structure Geom where
  left : Int
  top : Int
  width : Int
  height : Int
deriving DecidableEq

/-- Model of the QByteArray blob produced by `QMainWindow.saveState`: an
abstract dock/toolbar arrangement, the visibility of every dockwidget in
plugin order, and the version number Qt embeds in the blob.  The string
hexstate stored in the configuration is the hex encoding of this blob;
since the encoding is a bijection we identify the two. -/
structure QtWindowState where
  arrangement : Nat
  dockVisibs : List Bool
  version : Nat
deriving DecidableEq

/-- State of one plugin's QDockWidget. -/
structure DockWidget where
  visible : Bool
  floating : Bool
  hasTitleBar : Bool
  toggleViewEnabled : Bool
  hasWidget : Bool
  isShown : Bool
deriving DecidableEq

/-- State of one dockable plugin (new-API `SpyderDockablePlugin`).  A plugin
that failed its compatibility check has `dock = none`. -/
structure PluginState where
  confSection : String
  dock : Option DockWidget
  ismaximized : Bool
  widgetVisible : Bool
  toggleChecked : Bool
deriving DecidableEq

/-- State of the Qt main window. -/
structure MainWindow where
  size : Int × Int
  pos : Int × Int
  winState : WinState
  arrangement : Nat
  centralWidget : Option Nat
  geometry : Geom
  normalGeometry : Geom
  framelessHint : Bool
  staysOnTopHint : Bool
  screenGeom : Geom
  virtualScreenW : Int
  virtualScreenH : Int
  updatesEnabled : Bool
  statusBarHidden : Bool
deriving DecidableEq

/-- Typed preferences store.  Each map sends (section, option) to the stored
value; `none` models a key for which `get_conf` raises
`configparser.NoOptionError`.  `pairs` holds the 2-tuples of ints (sizes and
positions), `states` holds the hexstate entries (whose stored value may
itself be `None`), `bools` holds the boolean options. -/
structure ConfStore where
  pairs : String → String → Option (Int × Int)
  states : String → String → Option (Option QtWindowState)
  bools : String → String → Option Bool

/-- Write a 2-tuple option (`set_conf`). -/
def ConfStore.setPair (c : ConfStore) (sect key : String) (v : Int × Int) : ConfStore :=
  { c with pairs := fun s k => if s = sect ∧ k = key then some v else c.pairs s k }

/-- Write a hexstate option (`set_conf`); the stored value may be `None`. -/
def ConfStore.setState (c : ConfStore) (sect key : String) (v : Option QtWindowState) :
    ConfStore :=
  { c with states := fun s k => if s = sect ∧ k = key then some v else c.states s k }

/-- Write a boolean option (`set_conf`). -/
def ConfStore.setBool (c : ConfStore) (sect key : String) (v : Bool) : ConfStore :=
  { c with bools := fun s k => if s = sect ∧ k = key then some v else c.bools s k }

/-- Calls whose effect lives outside this module are recorded as events. -/
inductive LayoutEvent
  | criticalMessage
  | setupLayoutDefault
  | setupDefaultLayouts (layoutId : String)
  | layoutAppliedFromRegistry (layoutId : String)
  | outlineDockWithMaximizedEditor
  | outlineHideFromMaximizedEditor
  | toolbarToggleLock (v : Bool)
  | maximizeActionUnchecked
deriving DecidableEq

/-- Icon shown on the fullscreen action (`window_nofullscreen` when the
window is fullscreen, `window_fullscreen` otherwise). -/
inductive FsIcon
  | windowFullscreen
  | windowNoFullscreen
deriving DecidableEq

/-- An item of the `Panes` menu: a separator (Python adds `None` entries to
the menu) or the toggle-view action of the plugin with the given index. -/
inductive MenuItem
  | sep
  | action (i : Nat)
deriving DecidableEq

/-- Whole state of the `Layout` plugin together with the pieces of the host
application it manipulates. -/
structure LayoutState where
  main : MainWindow
  plugins : List PluginState
  conf : ConfStore
  confDefault : ConfStore
  lastPlugin : Option Nat
  fullscreenFlag : Option Bool
  maximizedFlag : Option Bool
  savedNormalGeometry : Option Geom
  stateBeforeMaximizing : Option QtWindowState
  interfaceLocked : Bool
  windowSettingsAppliedOnFirstRun : Bool
  firstSpyderRun : Bool
  windowSizeAttr : Option (Int × Int)
  windowPositionAttr : Option (Int × Int)
  focusPluginIdx : Option Nat
  editorIdx : Option Nat
  outlineIdx : Option Nat
  maximizeActionChecked : Bool
  fullscreenActionIcon : FsIcon
  lockIconLocked : Bool
  pluginsMenu : List MenuItem
  registeredLayouts : List String
  defaultLayouts : List String
  toolbarPresent : Bool
  osIsNT : Bool
  log : List LayoutEvent

/-- WINDOW_STATE_VERSION constant of the module (Spyder 6.0.0). -/
def WINDOW_STATE_VERSION : Nat := 4

/-- Python truthiness of an optional boolean (`None` is falsy). -/
def truthy (o : Option Bool) : Bool := o.getD false

/-- QMainWindow.isMaximized. -/
def MainWindow.isMaximized (m : MainWindow) : Bool :=
  match m.winState with
  | WinState.maximized => true
  | _ => false

/-- QMainWindow.isFullScreen. -/
def MainWindow.isFullScreen (m : MainWindow) : Bool :=
  match m.winState with
  | WinState.fullScreen => true
  | _ => false

/-- Visibility of a plugin's dockwidget, `false` when it has none. -/
def dockVisible (p : PluginState) : Bool := (p.dock.map DockWidget.visible).getD false

/-- Dock visibilities of all plugins, in plugin order (the visibility part of
what `QMainWindow.saveState` captures). -/
def saveVisibs (ps : List PluginState) : List Bool := ps.map dockVisible

/-- QMainWindow.saveState with a version argument. -/
def qSaveState (s : LayoutState) (v : Nat) : QtWindowState :=
  { arrangement := s.main.arrangement, dockVisibs := saveVisibs s.plugins, version := v }

/-- Set the visibility of a plugin's dockwidget (no-op when it has none). -/
def setDockVisible (b : Bool) (p : PluginState) : PluginState :=
  match p.dock with
  | some d => { p with dock := some { d with visible := b } }
  | none => p

/-- Restore the dock visibilities recorded in a saveState blob, matching
dockwidgets positionally; entries beyond either list are left alone. -/
def restoreVisibs : List PluginState → List Bool → List PluginState
  | [], _ => []
  | p :: ps, [] => p :: ps
  | p :: ps, v :: vs => setDockVisible v p :: restoreVisibs ps vs

/-- Layout.get_fullscreen_flag: returns the raw `_fullscreen_flag`
attribute, which is `None` before the first toggle. -/
def get_fullscreen_flag (s : LayoutState) : Option Bool := s.fullscreenFlag

/-- Layout.get_last_plugin. -/
def get_last_plugin (s : LayoutState) : Option Nat := s.lastPlugin

/-- Layout._update_fullscreen_action: pick the icon from the current value
of `_fullscreen_flag`. -/
def updateFullscreenAction (s : LayoutState) : LayoutState :=
  { s with fullscreenActionIcon :=
      if truthy s.fullscreenFlag then FsIcon.windowNoFullscreen
      else FsIcon.windowFullscreen }

/-- Screen rectangle enlarged by one pixel on every side, as used by the
Windows fullscreen workaround (`r.left()-1, r.top()-1, r.width()+2,
r.height()+2`). -/
def expandedScreenGeom (g : Geom) : Geom :=
  { left := g.left - 1, top := g.top - 1, width := g.width + 2, height := g.height + 2 }

/-- Layout.toggle_fullscreen.  On Windows (`os.name == 'nt'`) the frameless
window workaround is used; leaving fullscreen there reads
`_saved_normal_geometry`, which raises if it is still `None` (modelled by
`none`). -/
def toggle_fullscreen (s : LayoutState) : Option LayoutState :=
  if truthy s.fullscreenFlag then
    let s1 := { s with fullscreenFlag := some false }
    let s2opt : Option LayoutState :=
      if s1.osIsNT then
        match s1.savedNormalGeometry with
        | none => none
        | some g =>
          some { s1 with main := { s1.main with
                  framelessHint := !s1.main.framelessHint,
                  staysOnTopHint := !s1.main.staysOnTopHint,
                  geometry := g } }
      else some s1
    match s2opt with
    | none => none
    | some s2 =>
      let s3 := { s2 with main := { s2.main with winState := WinState.normal } }
      let s4 :=
        if truthy s3.maximizedFlag then
          { s3 with main := { s3.main with winState := WinState.maximized } }
        else s3
      some (updateFullscreenAction s4)
  else
    let s1 := { s with
      maximizedFlag := some s.main.isMaximized,
      fullscreenFlag := some true,
      savedNormalGeometry := some s.main.normalGeometry }
    let s2 :=
      if s1.osIsNT then
        { s1 with main := { s1.main with
            framelessHint := true,
            staysOnTopHint := true,
            geometry := expandedScreenGeom s1.main.screenGeom,
            winState := WinState.normal } }
      else
        { s1 with main := { s1.main with winState := WinState.fullScreen } }
    some (updateFullscreenAction s2)

/-- Helper for the tail of Layout.set_window_settings: apply the fullscreen
and maximized parts of the settings, mark the settings as applied on first
run and re-enable updates. -/
def applyRemaining (s : LayoutState) (is_maximized is_fullscreen : Bool) : LayoutState :=
  let s1 :=
    if is_fullscreen then
      { s with main := { s.main with winState := WinState.fullScreen } }
    else s
  let s2 :=
    if is_fullscreen then { s1 with maximizedFlag := some is_maximized }
    else if is_maximized then
      { s1 with main := { s1.main with winState := WinState.maximized } }
    else s1
  { s2 with
    windowSettingsAppliedOnFirstRun := true,
    main := { s2.main with updatesEnabled := true } }

/-- Layout.set_window_settings.  A falsy hexstate (Python `None` or the
empty string) is `none`.  When `restoreState` rejects the blob (embedded
version different from WINDOW_STATE_VERSION) the remaining settings are not
applied and the call to `setup_layout(default=True)` is recorded as the
`setupLayoutDefault` event (that function re-reads the default settings from
the configuration and reapplies them; its effect is outside the scope of the
claims about this method). -/
def set_window_settings (s : LayoutState) (hexstate : Option QtWindowState)
    (window_size pos : Int × Int) (is_maximized is_fullscreen : Bool) : LayoutState :=
  if s.windowSettingsAppliedOnFirstRun && s.firstSpyderRun then s
  else
    let s1 := { s with
      main := { s.main with updatesEnabled := false, size := window_size, pos := pos },
      windowSizeAttr := some window_size,
      windowPositionAttr := some pos }
    match hexstate with
    | some hx =>
      if hx.version = WINDOW_STATE_VERSION then
        let s2 := { s1 with
          main := { s1.main with arrangement := hx.arrangement },
          plugins := restoreVisibs s1.plugins hx.dockVisibs }
        applyRemaining s2 is_maximized is_fullscreen
      else
        { s1 with
          main := { s1.main with updatesEnabled := true },
          log := s1.log ++ [LayoutEvent.setupLayoutDefault] }
    | none => applyRemaining s1 is_maximized is_fullscreen

/-- Layout.get_window_settings.  Reads the `window_size` and
`window_position` attributes (set by `set_window_settings`); accessing them
before they exist raises, modelled by `none`.  When the window is
fullscreen, `is_maximized` is read from `_maximized_flag` (which can still
be Python `None`), otherwise from the window's maximized state. -/
def get_window_settings (s : LayoutState) :
    Option (QtWindowState × (Int × Int) × (Int × Int) × Option Bool × Bool) :=
  match s.windowSizeAttr, s.windowPositionAttr with
  | some sz, some p =>
    let is_fullscreen := s.main.isFullScreen
    let is_maximized : Option Bool :=
      if is_fullscreen then s.maximizedFlag else some s.main.isMaximized
    some (qSaveState s WINDOW_STATE_VERSION, sz, p, is_maximized, is_fullscreen)
  | _, _ => none

/-- Layout.load_window_settings.  `error` models an uncaught
`configparser.NoOptionError`; only the read of the `state` option is wrapped
in try/except in the source, so a missing `state` key silently yields a
`None` hexstate.  The stored position is replaced by the configured default
position exactly when it does not fit the virtual screen. -/
def load_window_settings (s : LayoutState) (pfx : String) (default : Bool)
    (sect : String) :
    Except Unit (Option QtWindowState × (Int × Int) × (Int × Int) × Bool × Bool) :=
  let store := if default then s.confDefault else s.conf
  match store.pairs sect (pfx ++ "size") with
  | none => Except.error ()
  | some window_size =>
    let hexstate : Option QtWindowState :=
      if default then none
      else (store.states sect (pfx ++ "state")).getD none
    match store.pairs sect (pfx ++ "position") with
    | none => Except.error ()
    | some pos =>
      let posRes : Except Unit (Int × Int) :=
        if s.main.virtualScreenW < pos.1 ∨ s.main.virtualScreenH < pos.2 then
          match s.confDefault.pairs sect (pfx ++ "position") with
          | none => Except.error ()
          | some dpos => Except.ok dpos
        else Except.ok pos
      match posRes with
      | Except.error e => Except.error e
      | Except.ok pos2 =>
        match store.bools sect (pfx ++ "is_maximized") with
        | none => Except.error ()
        | some m =>
          match store.bools sect (pfx ++ "is_fullscreen") with
          | none => Except.error ()
          | some f => Except.ok (hexstate, window_size, pos2, m, f)

/-- Hide a plugin's dockwidget (`plugin.dockwidget.hide()`). -/
def hideDock (p : PluginState) : PluginState :=
  match p.dock with
  | some d => { p with dock := some { d with visible := false } }
  | none => p

/-- First operand if present, otherwise the second. -/
def optOr (a b : Option Nat) : Option Nat :=
  match a with
  | some x => some x
  | none => b

/-- Index of the plugin whose widget is an ancestor of the application's
focus widget, if there is one (at most one plugin can contain the focus). -/
def focusedIn (s : LayoutState) : Option Nat :=
  match s.focusPluginIdx with
  | some i => if i < s.plugins.length then some i else none
  | none => none

/-- Second half of the maximize branch of Layout.maximize_dockwidget:
disable the plugin's toggle-view action, make its widget the central widget
(reparenting it out of its dockwidget), set its maximized flag and show it;
dock the outline explorer when the editor is being maximized. -/
def maximizeTarget (s : LayoutState) (i : Nat) : Option LayoutState :=
  match s.plugins[i]? with
  | none => none
  | some p =>
    match p.dock with
    | none => none
    | some d =>
      let p2 := { p with
        dock := some { d with toggleViewEnabled := false, hasWidget := false },
        ismaximized := true,
        widgetVisible := true }
      let s2 := { s with
        lastPlugin := some i,
        plugins := s.plugins.set i p2,
        main := { s.main with centralWidget := some i } }
      let s3 :=
        if s2.lastPlugin == s2.editorIdx && s2.outlineIdx.isSome then
          { s2 with log := s2.log ++ [LayoutEvent.outlineDockWithMaximizedEditor] }
        else s2
      some s3

/-- Layout.maximize_dockwidget.

First call (with `_state_before_maximizing` unset and `restore=False`):
save the window state, hide every dockwidget, pick the plugin to maximize
(the one holding the focus, else the remembered `_last_plugin`, else the
Editor) and maximize it.  Second call (or any call with
`_state_before_maximizing` set): restore the saved window state and clear
the maximized flag.  `none` models an uncaught `AttributeError` (a plugin
without a dockwidget in the hide loop, or a restore with no last plugin). -/
def maximize_dockwidget (s : LayoutState) (restore : Bool) : Option LayoutState :=
  match s.stateBeforeMaximizing with
  | none =>
    if restore then some s
    else
      let sbm := qSaveState s WINDOW_STATE_VERSION
      if s.plugins.all (fun p => p.dock.isSome) then
        let found := focusedIn s
        let s1 := { s with
          stateBeforeMaximizing := some sbm,
          plugins := s.plugins.map hideDock,
          lastPlugin := optOr found s.lastPlugin }
        match optOr found s.lastPlugin with
        | some i => maximizeTarget s1 i
        | none =>
          match s.editorIdx with
          | some e => maximizeTarget s1 e
          | none => some s1
      else none
  | some b =>
    match s.lastPlugin with
    | none => none
    | some i =>
      match s.plugins[i]? with
      | none => none
      | some p =>
        match p.dock with
        | none => none
        | some d =>
          let p2 := { p with
            dock := some { d with hasWidget := true, toggleViewEnabled := true },
            ismaximized := false }
          let plugins1 := s.plugins.set i p2
          let main1 := { s.main with centralWidget := none }
          let restored :=
            if b.version = WINDOW_STATE_VERSION then
              ({ main1 with arrangement := b.arrangement },
               restoreVisibs plugins1 b.dockVisibs)
            else (main1, plugins1)
          let s1 := { s with
            plugins := restored.2,
            main := restored.1,
            stateBeforeMaximizing := none }
          let s2 :=
            if s1.lastPlugin == s1.editorIdx && s1.outlineIdx.isSome then
              { s1 with log := s1.log ++ [LayoutEvent.outlineHideFromMaximizedEditor] }
            else s1
          some { s2 with focusPluginIdx := some i }

/-- Layout.save_current_window_settings.  Writes the current size, the
maximized/fullscreen flags and the clamped position, restores a maximized
pane, then writes the hexstate (or `None` when `none_state`) and the
statusbar visibility. -/
def save_current_window_settings (s : LayoutState) (pfx sect : String)
    (none_state : Bool) : Option LayoutState :=
  let win_size := s.main.size
  let p := s.main.pos
  let c1 := s.conf.setPair sect (pfx ++ "size") win_size
  let c2 := c1.setBool sect (pfx ++ "is_maximized") s.main.isMaximized
  let c3 := c2.setBool sect (pfx ++ "is_fullscreen") s.main.isFullScreen
  let c4 := c3.setPair sect (pfx ++ "position")
      (if p.1 > 0 then p.1 else 0, if p.2 > 0 then p.2 else 0)
  let s1 := { s with conf := c4 }
  match maximize_dockwidget s1 true with
  | none => none
  | some s2 =>
    let c5 :=
      if none_state then s2.conf.setState sect (pfx ++ "state") none
      else s2.conf.setState sect (pfx ++ "state")
        (some (qSaveState s2 WINDOW_STATE_VERSION))
    let c6 := c5.setBool sect (pfx ++ "statusbar") (!s2.main.statusBarHidden)
    some { s2 with conf := c6 }

/-- Tail of Layout.quick_layout_switch, run unless the custom-layout error
path returned early: set every toggle-view action's checked state from its
dockwidget's visibility, then reapply the dock tabbar style (a plugin
without a dockwidget makes both loops raise). -/
def finishQuickSwitch (s : LayoutState) (layoutId : String) :
    Option (LayoutState × Option String) :=
  if s.plugins.all (fun p => p.dock.isSome) then
    let ps1 := s.plugins.map (fun p =>
      match p.dock with
      | some d => { p with toggleChecked := d.visible }
      | none => p)
    let ps2 := ps1.map (fun p =>
      match p.dock with
      | some d => { p with dock := some { d with isShown := true } }
      | none => p)
    some ({ s with plugins := ps2 }, some layoutId)
  else none

/-- Layout.quick_layout_switch.  The initial `unmaximize_dockwidget` call
unchecks the maximize action when it is checked; the toggled handler wired
to that action lives in the container (outside this module) and is recorded
as an event.  A `None` stored hexstate for a non-default identifier shows a
critical error message and returns `None`; for a default identifier it
regenerates the default layout (`setup_default_layouts`, recorded as an
event since its effect goes through the layout classes).  A missing config
option falls back to applying a registered layout, or a critical message. -/
def quick_layout_switch (s : LayoutState) (layoutId : String) :
    Option (LayoutState × Option String) :=
  let s0 :=
    if s.maximizeActionChecked then
      { s with maximizeActionChecked := false,
               log := s.log ++ [LayoutEvent.maximizeActionUnchecked] }
    else s
  let pfx := "layout_" ++ layoutId ++ "/"
  match load_window_settings s0 pfx false "quick_layouts" with
  | Except.error _ =>
    let s1 :=
      if layoutId ∈ s0.registeredLayouts then
        { s0 with log := s0.log ++ [LayoutEvent.layoutAppliedFromRegistry layoutId] }
      else
        { s0 with log := s0.log ++ [LayoutEvent.criticalMessage] }
    finishQuickSwitch s1 layoutId
  | Except.ok (hexstate, window_size, pos, m, f) =>
    match hexstate with
    | none =>
      if layoutId ∈ s0.defaultLayouts then
        finishQuickSwitch
          { s0 with log := s0.log ++ [LayoutEvent.setupDefaultLayouts layoutId] }
          layoutId
      else
        some ({ s0 with log := s0.log ++ [LayoutEvent.criticalMessage] }, none)
    | some hx =>
      finishQuickSwitch (set_window_settings s0 (some hx) window_size pos m f) layoutId

/-- The per-dockwidget body of the pane-lock loop in Layout.toggle_lock:
when locking, floating is disabled and the title bar removed; when
unlocking, the title bar is set; plugins without a dockwidget are
skipped. -/
def applyDockLock (locked : Bool) (p : PluginState) : PluginState :=
  match p.dock with
  | none => p
  | some d =>
    if locked then
      { p with dock := some { d with floating := false, hasTitleBar := false } }
    else
      { p with dock := some { d with hasTitleBar := true } }

/-- Layout.toggle_lock.  Negates the interface-locked flag when `value` is
`None`, otherwise sets it; writes it to the `panes_locked` option of the
`main` section; updates the lock action; removes the title bar (disabling
floating) of every dockwidget when locking and restores it when unlocking;
finally forwards the lock to the toolbar plugin when it is loaded. -/
def toggle_lock (s : LayoutState) (value : Option Bool) : LayoutState :=
  let locked :=
    match value with
    | none => !s.interfaceLocked
    | some v => v
  let s1 := { s with
    interfaceLocked := locked,
    conf := s.conf.setBool "main" "panes_locked" locked,
    lockIconLocked := locked }
  let s2 := { s1 with plugins := s1.plugins.map (applyDockLock locked) }
  if s2.toolbarPresent then
    { s2 with log := s2.log ++ [LayoutEvent.toolbarToggleLock locked] }
  else s2

/-- Entry of the working `order` list of Layout.create_plugins_menu: a plugin
name still to be replaced, a `None` separator, or a placed toggle action. -/
inductive MenuEntry
  | name (nm : String)
  | sep
  | act (i : Nat)
deriving DecidableEq

/-- The fixed `order` list of Layout.create_plugins_menu (Python `None`
entries become separators). -/
def initOrder : List MenuEntry :=
  [MenuEntry.name "editor",
   MenuEntry.name "ipython_console",
   MenuEntry.name "variable_explorer",
   MenuEntry.name "debugger",
   MenuEntry.name "help",
   MenuEntry.name "plots",
   MenuEntry.sep,
   MenuEntry.name "explorer",
   MenuEntry.name "outline_explorer",
   MenuEntry.name "project_explorer",
   MenuEntry.name "find_in_files",
   MenuEntry.sep,
   MenuEntry.name "historylog",
   MenuEntry.name "profiler",
   MenuEntry.name "pylint",
   MenuEntry.sep,
   MenuEntry.name "onlinehelp",
   MenuEntry.name "internal_console",
   MenuEntry.sep]

/-- Replace the first occurrence of the entry `name nm` by `a` (Python
`order[order.index(name)] = action`); `none` when the name is absent
(`ValueError`). -/
def replaceFirst (a : MenuEntry) (nm : String) : List MenuEntry → Option (List MenuEntry)
  | [] => none
  | e :: es =>
    if e = MenuEntry.name nm then some (a :: es)
    else (replaceFirst a nm es).map (fun r => e :: r)

/-- The plugin loop of Layout.create_plugins_menu: each plugin with a
dockwidget either takes the slot of its CONF_SECTION in the order list or is
appended at the end; plugins without a dockwidget are skipped. -/
def processPlugins : List (Nat × PluginState) → List MenuEntry → List MenuEntry
  | [], order => order
  | ip :: rest, order =>
    match ip.2.dock with
    | none => processPlugins rest order
    | some _ =>
      let a := MenuEntry.act ip.1
      match replaceFirst a ip.2.confSection order with
      | some order2 => processPlugins rest order2
      | none => processPlugins rest (order ++ [a])

/-- Pair every plugin with its index, starting at `n`. -/
def enumFromN (n : Nat) : List PluginState → List (Nat × PluginState)
  | [] => []
  | p :: ps => (n, p) :: enumFromN (n + 1) ps

/-- The `action.setChecked(plugin.dockwidget.isVisible())` step of the
plugin loop (skipped for plugins without a dockwidget). -/
def setToggleFromDock (p : PluginState) : PluginState :=
  match p.dock with
  | some d => { p with toggleChecked := d.visible }
  | none => p

/-- Final `add_action` pass: strings remaining in the order list are
skipped, `None` entries become separators, actions are added. -/
def entryToItem : MenuEntry → Option MenuItem
  | MenuEntry.name _ => none
  | MenuEntry.sep => some MenuItem.sep
  | MenuEntry.act i => some (MenuItem.action i)

/-- Layout.create_plugins_menu: populate the panes menu with the toggle-view
action of every dockable plugin (the `aboutToShow`/`aboutToHide` signal
connections carry no state and are not modelled). -/
def create_plugins_menu (s : LayoutState) : LayoutState :=
  let indexed := enumFromN 0 s.plugins
  let finalOrder := processPlugins indexed initOrder
  let items := finalOrder.filterMap entryToItem
  { s with
    plugins := s.plugins.map setToggleFromDock,
    pluginsMenu := s.pluginsMenu ++ items }

/-- Index of the first plugin (among the indexed list) whose CONF_SECTION is
`nm` and which has a dockwidget. -/
def findDockIdx : List (Nat × PluginState) → String → Option Nat
  | [], _ => none
  | ip :: rest, nm =>
    if ip.2.confSection = nm ∧ ip.2.dock.isSome then some ip.1
    else findDockIdx rest nm

/-- Claim-side description of one fixed slot of the order list: a plugin
name is replaced by the toggle action of the (unique) loaded plugin with
that CONF_SECTION and a dockwidget, and stays a bare name otherwise. -/
def replEntry (ips : List (Nat × PluginState)) : MenuEntry → MenuEntry
  | MenuEntry.name nm =>
    match findDockIdx ips nm with
    | some i => MenuEntry.act i
    | none => MenuEntry.name nm
  | MenuEntry.sep => MenuEntry.sep
  | MenuEntry.act i => MenuEntry.act i

/-- Claim-side description of the appended tail: the plugins with a
dockwidget whose CONF_SECTION does not appear in the order list, in plugin
order. -/
def appendedActs (order : List MenuEntry) (ips : List (Nat × PluginState)) :
    List MenuEntry :=
  ips.filterMap (fun ip =>
    if ip.2.dock.isSome = true ∧ ¬ (MenuEntry.name ip.2.confSection ∈ order) then
      some (MenuEntry.act ip.1)
    else none)

/-- Claim-side description of the items added to the panes menu by
`create_plugins_menu`, written from the claim's wording: plugins whose
CONF_SECTION appears in the fixed order list sit at that list's position,
all other plugins with a dockwidget are appended after them, and plugins
without a dockwidget are skipped. -/
def pluginsMenuSpec (s : LayoutState) : List MenuItem :=
  (initOrder.map (replEntry (enumFromN 0 s.plugins))).filterMap entryToItem
    ++ (appendedActs initOrder (enumFromN 0 s.plugins)).filterMap entryToItem

/-- The plugin name carried by an order-list entry, if any. -/
def nameOf : MenuEntry → Option String
  | MenuEntry.name nm => some nm
  | MenuEntry.sep => none
  | MenuEntry.act _ => none

/-- The plugin names still present in an order list. -/
def namesOf (order : List MenuEntry) : List String := order.filterMap nameOf

/-- The CONF_SECTIONs of the indexed plugins that have a dockwidget. -/
def dockSections (ips : List (Nat × PluginState)) : List String :=
  ips.filterMap (fun ip => if ip.2.dock.isSome then some ip.2.confSection else none)

/-! Concrete instances used by witnesses and counterexamples. -/

/-- Configuration store with no keys set. -/
def emptyConf : ConfStore :=
  { pairs := fun _ _ => none, states := fun _ _ => none, bools := fun _ _ => none }

/-- Sample geometry. -/
def baseGeom : Geom := { left := 0, top := 0, width := 1920, height := 1080 }

/-- Sample dockwidget. -/
def baseDock : DockWidget :=
  { visible := true, floating := false, hasTitleBar := true,
    toggleViewEnabled := true, hasWidget := true, isShown := false }

/-- Sample main window in its normal state. -/
def baseMain : MainWindow :=
  { size := (1200, 800), pos := (10, 20), winState := WinState.normal,
    arrangement := 7, centralWidget := none, geometry := baseGeom,
    normalGeometry := baseGeom, framelessHint := false, staysOnTopHint := false,
    screenGeom := baseGeom, virtualScreenW := 1920, virtualScreenH := 1080,
    updatesEnabled := true, statusBarHidden := false }

/-- Sample dockable plugin. -/
def basePlugin (sect : String) : PluginState :=
  { confSection := sect, dock := some baseDock, ismaximized := false,
    widgetVisible := true, toggleChecked := true }

/-- Sample plugin state: an editor and a console, nothing maximized. -/
def baseState : LayoutState :=
  { main := baseMain,
    plugins := [basePlugin "editor", basePlugin "internal_console"],
    conf := emptyConf, confDefault := emptyConf,
    lastPlugin := none, fullscreenFlag := none, maximizedFlag := none,
    savedNormalGeometry := none, stateBeforeMaximizing := none,
    interfaceLocked := false, windowSettingsAppliedOnFirstRun := false,
    firstSpyderRun := false, windowSizeAttr := none, windowPositionAttr := none,
    focusPluginIdx := none, editorIdx := some 0, outlineIdx := none,
    maximizeActionChecked := false, fullscreenActionIcon := FsIcon.windowFullscreen,
    lockIconLocked := false, pluginsMenu := [],
    registeredLayouts := [], defaultLayouts := ["Spyder Default Layout"],
    toolbarPresent := false, osIsNT := false, log := [] }

/-- A valid version-4 saveState blob with no dockwidget entries. -/
def cexHex : QtWindowState :=
  { arrangement := 0, dockVisibs := [], version := WINDOW_STATE_VERSION }

/-- State whose main window is currently maximized and has no dockable
plugins loaded (C1 counterexample input). -/
def cexState1 : LayoutState :=
  { baseState with
    main := { baseMain with winState := WinState.maximized },
    plugins := [] }

/-- State where no plugin holds the focus, the Editor is plugin 1, but a
stale `_last_plugin` reference points at plugin 0 (C2 counterexample
input). -/
def cexState2 : LayoutState :=
  { baseState with
    plugins := [basePlugin "internal_console", basePlugin "editor"],
    focusPluginIdx := none,
    lastPlugin := some 0,
    editorIdx := some 1 }

/-- A saveState blob with version 3: rejected by restoreState at the current
WINDOW_STATE_VERSION (4). -/
def cexHex3 : QtWindowState := { arrangement := 5, dockVisibs := [], version := 3 }

/-- Configuration store holding a complete `window/` settings block in the
`main` section, with a `None` hexstate. -/
def c6Conf : ConfStore :=
  ((((emptyConf.setPair "main" "window/size" (1200, 800)).setPair
      "main" "window/position" (10, 20)).setBool
      "main" "window/is_maximized" false).setBool
      "main" "window/is_fullscreen" false).setState
      "main" "window/state" none

/-- Default-configuration store holding a default window position. -/
def c6DefaultConf : ConfStore := emptyConf.setPair "main" "window/position" (0, 0)

/-- Plugin state whose configuration holds the `window/` settings block. -/
def c6State : LayoutState :=
  { baseState with conf := c6Conf, confDefault := c6DefaultConf }

/-- Configuration store holding a complete quick-layout settings block for
the given prefix, with the given stored hexstate value. -/
def c5Conf (pfx : String) (st : Option QtWindowState) : ConfStore :=
  ((((emptyConf.setPair "quick_layouts" (pfx ++ "size") (800, 600)).setPair
      "quick_layouts" (pfx ++ "position") (0, 0)).setBool
      "quick_layouts" (pfx ++ "is_maximized") false).setBool
      "quick_layouts" (pfx ++ "is_fullscreen") false).setState
      "quick_layouts" (pfx ++ "state") st

/-- State with a stored custom quick layout whose hexstate is `None`. -/
def c5StateA : LayoutState :=
  { baseState with conf := c5Conf "layout_custom1/" none }

/-- State with a stored default quick layout whose hexstate is `None`. -/
def c5StateB : LayoutState :=
  { baseState with conf := c5Conf "layout_Spyder Default Layout/" none }

/-- State with a stored custom quick layout with a valid hexstate. -/
def c5StateC : LayoutState :=
  { baseState with conf := c5Conf "layout_custom2/" (some cexHex) }

/-! Helper lemmas shared by several proofs. -/

/-- Restoring with `restore=True` while nothing is maximized returns
immediately without touching the state. -/
theorem maximize_restore_of_none (s : LayoutState)
    (h : s.stateBeforeMaximizing = none) :
    maximize_dockwidget s true = some s := by
  simp [maximize_dockwidget, h]

/-- Hiding a dockwidget makes `dockVisible` false (also for a plugin without
a dockwidget, whose `dockVisible` is false to begin with). -/
theorem dockVisible_hideDock (p : PluginState) : dockVisible (hideDock p) = false := by
  cases hp : p.dock <;> simp [hideDock, dockVisible, hp]

/-- Hiding a dockwidget does not create or remove it. -/
theorem hideDock_dock_isSome (p : PluginState) :
    (hideDock p).dock.isSome = p.dock.isSome := by
  cases hp : p.dock <;> simp [hideDock, hp]

/-- Setting dock visibility does not create or remove the dockwidget. -/
theorem setDockVisible_dock_isSome (b : Bool) (p : PluginState) :
    (setDockVisible b p).dock.isSome = p.dock.isSome := by
  cases hp : p.dock <;> simp [setDockVisible, hp]

/-- Setting dock visibility keeps the plugin's maximized flag. -/
theorem setDockVisible_ismaximized (b : Bool) (p : PluginState) :
    (setDockVisible b p).ismaximized = p.ismaximized := by
  cases hp : p.dock <;> simp [setDockVisible, hp]

/-- A list with an updated entry satisfies `all q` when the original list
does and the new entry does. -/
theorem all_set_of_all {α : Type} (q : α → Bool) :
    ∀ (l : List α) (i : Nat) (a : α), l.all q = true → q a = true →
      (l.set i a).all q = true
  | [], _, _, _, _ => rfl
  | x :: xs, 0, a, hl, ha => by
    simp only [List.all_cons, Bool.and_eq_true] at hl
    simp [List.set, ha, hl.2]
  | x :: xs, Nat.succ n, a, hl, ha => by
    simp only [List.all_cons, Bool.and_eq_true] at hl
    simp [List.set, hl.1, all_set_of_all q xs n a hl.2 ha]

/-- Saving the dock visibilities after restoring them gives back the saved
list, provided the lengths match and every plugin has a dockwidget. -/
theorem saveVisibs_restore :
    ∀ (ps : List PluginState) (vs : List Bool),
      vs.length = ps.length → ps.all (fun p => p.dock.isSome) = true →
      saveVisibs (restoreVisibs ps vs) = vs
  | [], [], _, _ => rfl
  | [], _ :: _, h, _ => by simp at h
  | _ :: _, [], h, _ => by simp at h
  | p :: ps, v :: vs, h, hd => by
    simp only [List.all_cons, Bool.and_eq_true] at hd
    have hp : ∃ d, p.dock = some d := Option.isSome_iff_exists.mp hd.1
    obtain ⟨d, hdk⟩ := hp
    simp only [List.length_cons, Nat.succ.injEq] at h
    have ih := saveVisibs_restore ps vs h hd.2
    simp only [saveVisibs] at ih
    simp [restoreVisibs, saveVisibs, setDockVisible, hdk, dockVisible, ih]

/-- Restoring dock visibilities never creates or removes dockwidgets. -/
theorem restoreVisibs_all_isSome :
    ∀ (ps : List PluginState) (vs : List Bool),
      ps.all (fun p => p.dock.isSome) = true →
      (restoreVisibs ps vs).all (fun p => p.dock.isSome) = true
  | [], _, _ => rfl
  | p :: ps, [], h => h
  | p :: ps, v :: vs, h => by
    simp only [List.all_cons, Bool.and_eq_true] at h
    simp [restoreVisibs, List.all_cons, setDockVisible_dock_isSome, h.1,
      restoreVisibs_all_isSome ps vs h.2]

/-- Restoring dock visibilities keeps every plugin's maximized flag. -/
theorem restoreVisibs_map_ismaximized :
    ∀ (ps : List PluginState) (vs : List Bool),
      (restoreVisibs ps vs).map PluginState.ismaximized
        = ps.map PluginState.ismaximized
  | [], _ => rfl
  | p :: ps, [] => rfl
  | p :: ps, v :: vs => by
    simp [restoreVisibs, setDockVisible_ismaximized,
      restoreVisibs_map_ismaximized ps vs]

/-- The lock loop body leaves every surviving dockwidget with its title bar
removed and floating disabled when locking, and with its title bar set when
unlocking. -/
theorem applyDockLock_spec (lk : Bool) (p : PluginState) (d : DockWidget)
    (hd : (applyDockLock lk p).dock = some d) :
    (lk = true → d.hasTitleBar = false ∧ d.floating = false)
    ∧ (lk = false → d.hasTitleBar = true) := by
  rcases hdk : p.dock with _ | d0
  · simp only [applyDockLock, hdk] at hd
    exact Option.noConfusion hd
  · rcases lk <;> simp only [applyDockLock, hdk] at hd
    · simp only [Bool.false_eq_true, if_false, Option.some.injEq] at hd
      subst hd
      refine ⟨?_, ?_⟩
      · intro h2
        exact Bool.noConfusion h2
      · intro _
        rfl
    · simp only [if_true, Option.some.injEq] at hd
      subst hd
      refine ⟨?_, ?_⟩
      · intro _
        exact ⟨rfl, rfl⟩
      · intro h2
        exact Bool.noConfusion h2

/-- Applying the fullscreen/maximized tail of set_window_settings does not
touch the plugins list. -/
theorem applyRemaining_plugins (s : LayoutState) (m f : Bool) :
    (applyRemaining s m f).plugins = s.plugins := by
  rcases f <;> rcases m <;> rfl

/-- set_window_settings never removes dockwidgets: if every plugin has one
before the call, every plugin has one after it. -/
theorem set_window_settings_all_docks (s : LayoutState) (hx : Option QtWindowState)
    (sz pos : Int × Int) (m f : Bool)
    (hdocks : s.plugins.all (fun p => p.dock.isSome) = true) :
    ((set_window_settings s hx sz pos m f).plugins).all (fun p => p.dock.isSome)
      = true := by
  simp only [set_window_settings]
  split
  · exact hdocks
  · rcases hx with _ | h2
    · simpa [applyRemaining_plugins] using hdocks
    · dsimp only
      by_cases hv : h2.version = WINDOW_STATE_VERSION
      · simp only [if_pos hv, applyRemaining_plugins]
        exact restoreVisibs_all_isSome s.plugins h2.dockVisibs hdocks
      · simp only [if_neg hv]
        exact hdocks

/-- Hiding all dockwidgets preserves their existence. -/
theorem all_isSome_map_hide (l : List PluginState)
    (h : l.all (fun p => p.dock.isSome) = true) :
    (l.map hideDock).all (fun p => p.dock.isSome) = true := by
  rw [List.all_eq_true]
  intro x hx
  rw [List.mem_map] at hx
  obtain ⟨y, hy, rfl⟩ := hx
  rw [hideDock_dock_isSome]
  exact List.all_eq_true.mp h y hy

/-- After the hide loop every dockwidget is invisible. -/
theorem all_hidden_map_hide (l : List PluginState) :
    (l.map hideDock).all (fun p => !(dockVisible p)) = true := by
  rw [List.all_eq_true]
  intro x hx
  rw [List.mem_map] at hx
  obtain ⟨y, _, rfl⟩ := hx
  simp [dockVisible_hideDock]

/-- Restoring dock visibilities keeps the maximized flag at every index. -/
theorem restoreVisibs_getElem_ismaximized (l : List PluginState) (vs : List Bool)
    (i : Nat) :
    ((restoreVisibs l vs)[i]?).map PluginState.ismaximized
      = (l[i]?).map PluginState.ismaximized := by
  have h1 : ((restoreVisibs l vs).map PluginState.ismaximized)[i]?
      = ((l.map PluginState.ismaximized))[i]? := by
    rw [restoreVisibs_map_ismaximized]
  simpa [List.getElem?_map] using h1

/-- Shape of the maximize half of maximize_dockwidget after the target
plugin has been selected. -/
theorem maximizeTarget_props (s1 : LayoutState) (i : Nat) (p : PluginState)
    (d : DockWidget) (hp : s1.plugins[i]? = some p) (hd : p.dock = some d) :
    ∃ s3, maximizeTarget s1 i = some s3
      ∧ s3.stateBeforeMaximizing = s1.stateBeforeMaximizing
      ∧ s3.plugins = s1.plugins.set i
          { p with
            dock := some { d with toggleViewEnabled := false, hasWidget := false },
            ismaximized := true,
            widgetVisible := true }
      ∧ s3.main.centralWidget = some i
      ∧ s3.main.arrangement = s1.main.arrangement
      ∧ s3.lastPlugin = some i
      ∧ s3.editorIdx = s1.editorIdx
      ∧ s3.outlineIdx = s1.outlineIdx := by
  simp only [maximizeTarget, hp, hd]
  split <;> exact ⟨_, rfl, rfl, rfl, rfl, rfl, rfl, rfl, rfl⟩

/-- Shape of the restore half of maximize_dockwidget when a valid saved
state and last plugin are present. -/
theorem maximize_restore_props (s3 : LayoutState) (b : QtWindowState) (i : Nat)
    (p : PluginState) (d : DockWidget) (r : Bool)
    (hsbm : s3.stateBeforeMaximizing = some b)
    (hlast : s3.lastPlugin = some i)
    (hp : s3.plugins[i]? = some p) (hd : p.dock = some d)
    (hv : b.version = WINDOW_STATE_VERSION) :
    ∃ s4, maximize_dockwidget s3 r = some s4
      ∧ s4.main.arrangement = b.arrangement
      ∧ s4.plugins = restoreVisibs
          (s3.plugins.set i
            { p with
              dock := some { d with hasWidget := true, toggleViewEnabled := true },
              ismaximized := false })
          b.dockVisibs
      ∧ s4.stateBeforeMaximizing = none
      ∧ s4.main.centralWidget = none := by
  simp only [maximize_dockwidget, hsbm, hlast, hp, hd, if_pos hv]
  split <;> exact ⟨_, rfl, rfl, rfl, rfl, rfl⟩

/-! Lemmas about the panes-menu construction. -/

/-- With no plugins, every order entry is left alone. -/
theorem replEntry_nil (e : MenuEntry) : replEntry [] e = e := by
  cases e <;> rfl

/-- A plugin without a dockwidget takes part in no replacement. -/
theorem replEntry_skip (ip : Nat × PluginState) (rest : List (Nat × PluginState))
    (e : MenuEntry) (hd : ip.2.dock.isSome = false) :
    replEntry (ip :: rest) e = replEntry rest e := by
  cases e <;> simp [replEntry, findDockIdx, hd]

/-- An entry for a different name is not affected by the head plugin. -/
theorem replEntry_ne (ip : Nat × PluginState) (rest : List (Nat × PluginState))
    (e : MenuEntry) (hne : e ≠ MenuEntry.name ip.2.confSection) :
    replEntry (ip :: rest) e = replEntry rest e := by
  cases e with
  | name nm =>
    have hnm : ¬ (ip.2.confSection = nm) := by
      intro h2
      exact hne (by rw [h2])
    simp [replEntry, findDockIdx, hnm]
  | sep => rfl
  | act i => rfl

/-- The head plugin's own name entry is replaced by its action. -/
theorem replEntry_hit (ip : Nat × PluginState) (rest : List (Nat × PluginState))
    (hd : ip.2.dock.isSome = true) :
    replEntry (ip :: rest) (MenuEntry.name ip.2.confSection) = MenuEntry.act ip.1 := by
  simp [replEntry, findDockIdx, hd]

/-- A name entry of the order list contributes its name to `namesOf`. -/
theorem mem_namesOf (nm : String) (order : List MenuEntry)
    (h : MenuEntry.name nm ∈ order) : nm ∈ namesOf order :=
  List.mem_filterMap.2 ⟨MenuEntry.name nm, h, rfl⟩

/-- Distinctness of names is inherited by the tail of the order list. -/
theorem namesOf_cons_nodup (e : MenuEntry) (es : List MenuEntry)
    (h : (namesOf (e :: es)).Nodup) : (namesOf es).Nodup := by
  rcases he : nameOf e with _ | nm
  · simpa [namesOf, List.filterMap_cons, he] using h
  · rw [namesOf, List.filterMap_cons, he] at h
    exact h.of_cons

/-- Appending an action entry does not change the names of the order list. -/
theorem namesOf_append_act (order : List MenuEntry) (j : Nat) :
    namesOf (order ++ [MenuEntry.act j]) = namesOf order := by
  simp [namesOf, List.filterMap_append, List.filterMap_cons, nameOf]

/-- A successful replacement found its name in the order list. -/
theorem replaceFirst_some_mem (a : MenuEntry) (nm : String) :
    ∀ (order order2 : List MenuEntry), replaceFirst a nm order = some order2 →
      MenuEntry.name nm ∈ order
  | [], _, h => by simp [replaceFirst] at h
  | e :: es, order2, h => by
    by_cases he : e = MenuEntry.name nm
    · rw [he]
      exact List.mem_cons_self _ _
    · rw [replaceFirst, if_neg he] at h
      rcases hres : replaceFirst a nm es with _ | r
      · rw [hres] at h
        simp at h
      · exact List.mem_cons_of_mem e (replaceFirst_some_mem a nm es r hres)

/-- A failed replacement means the name is absent from the order list. -/
theorem replaceFirst_none_not_mem (a : MenuEntry) (nm : String) :
    ∀ (order : List MenuEntry), replaceFirst a nm order = none →
      MenuEntry.name nm ∉ order
  | [], _ => by simp
  | e :: es, h => by
    by_cases he : e = MenuEntry.name nm
    · rw [replaceFirst, if_pos he] at h
      exact Option.noConfusion h
    · rw [replaceFirst, if_neg he] at h
      rcases hres : replaceFirst a nm es with _ | r
      · intro hmem
        rcases List.mem_cons.mp hmem with h2 | h2
        · exact he h2.symm
        · exact replaceFirst_none_not_mem a nm es hres h2
      · rw [hres] at h
        simp at h

/-- Replacing a name entry by an action only removes names. -/
theorem replaceFirst_names_sublist (a : MenuEntry) (nm : String)
    (ha : nameOf a = none) :
    ∀ (order order2 : List MenuEntry), replaceFirst a nm order = some order2 →
      List.Sublist (namesOf order2) (namesOf order)
  | [], _, h => by simp [replaceFirst] at h
  | e :: es, order2, h => by
    by_cases he : e = MenuEntry.name nm
    · rw [replaceFirst, if_pos he] at h
      cases h
      rw [he, namesOf, namesOf, List.filterMap_cons, List.filterMap_cons, ha]
      exact List.sublist_cons_of_sublist _ (List.Sublist.refl _)
    · rw [replaceFirst, if_neg he] at h
      rcases hres : replaceFirst a nm es with _ | r
      · rw [hres] at h
        simp at h
      · rw [hres] at h
        simp only [Option.map_some', Option.some.injEq] at h
        subst h
        have ih := replaceFirst_names_sublist a nm ha es r hres
        rw [namesOf, namesOf, List.filterMap_cons, List.filterMap_cons]
        rcases nameOf e with _ | nm2
        · exact ih
        · exact List.Sublist.cons₂ nm2 ih

/-- Replacement of one name entry by an action preserves membership of every
other name entry. -/
theorem replaceFirst_mem_iff (a : MenuEntry) (nm nm2 : String)
    (hne : nm2 ≠ nm) (ha : a ≠ MenuEntry.name nm2) :
    ∀ (order order2 : List MenuEntry), replaceFirst a nm order = some order2 →
      (MenuEntry.name nm2 ∈ order2 ↔ MenuEntry.name nm2 ∈ order)
  | [], _, h => by simp [replaceFirst] at h
  | e :: es, order2, h => by
    by_cases he : e = MenuEntry.name nm
    · rw [replaceFirst, if_pos he] at h
      cases h
      subst he
      constructor
      · intro hmem
        rcases List.mem_cons.mp hmem with h2 | h2
        · exact absurd h2.symm ha
        · exact List.mem_cons_of_mem _ h2
      · intro hmem
        rcases List.mem_cons.mp hmem with h2 | h2
        · simp only [MenuEntry.name.injEq] at h2
          exact absurd h2 hne
        · exact List.mem_cons_of_mem _ h2
    · rw [replaceFirst, if_neg he] at h
      rcases hres : replaceFirst a nm es with _ | r
      · rw [hres] at h
        simp at h
      · rw [hres] at h
        simp only [Option.map_some', Option.some.injEq] at h
        subst h
        have ih := replaceFirst_mem_iff a nm nm2 hne ha es r hres
        simp only [List.mem_cons, ih]

/-- Replacing the head plugin's name slot rewrites the order list exactly
the way the claim-side `replEntry` describes, provided the names in the
order list are distinct. -/
theorem replaceFirst_map (ip : Nat × PluginState) (rest : List (Nat × PluginState))
    (hd : ip.2.dock.isSome = true) :
    ∀ (order order2 : List MenuEntry),
      replaceFirst (MenuEntry.act ip.1) ip.2.confSection order = some order2 →
      (namesOf order).Nodup →
      order2.map (replEntry rest) = order.map (replEntry (ip :: rest))
  | [], _, h, _ => by simp [replaceFirst] at h
  | e :: es, order2, h, hnodup => by
    by_cases he : e = MenuEntry.name ip.2.confSection
    · rw [replaceFirst, if_pos he] at h
      cases h
      subst he
      simp only [List.map_cons]
      congr 1
      · rw [replEntry_hit ip rest hd]
        rfl
      · have hnm : MenuEntry.name ip.2.confSection ∉ es := by
          intro hmem
          rw [namesOf, List.filterMap_cons] at hnodup
          simp only [nameOf] at hnodup
          exact (List.nodup_cons.mp hnodup).1 (mem_namesOf _ es hmem)
        apply List.map_congr_left
        intro x hx
        exact (replEntry_ne ip rest x (fun hxe => hnm (hxe ▸ hx))).symm
    · rw [replaceFirst, if_neg he] at h
      rcases hres : replaceFirst (MenuEntry.act ip.1) ip.2.confSection es with _ | r
      · rw [hres] at h
        simp at h
      · rw [hres] at h
        simp only [Option.map_some', Option.some.injEq] at h
        subst h
        simp only [List.map_cons]
        congr 1
        · exact (replEntry_ne ip rest e he).symm
        · exact replaceFirst_map ip rest hd es r hres (namesOf_cons_nodup e es hnodup)

/-- A plugin without a dockwidget never reaches the appended tail. -/
theorem appendedActs_cons_nodock (order : List MenuEntry) (ip : Nat × PluginState)
    (rest : List (Nat × PluginState)) (hd : ip.2.dock.isSome = false) :
    appendedActs order (ip :: rest) = appendedActs order rest := by
  simp [appendedActs, List.filterMap_cons, hd]

/-- A plugin whose name sits in the order list is not appended. -/
theorem appendedActs_cons_mem (order : List MenuEntry) (ip : Nat × PluginState)
    (rest : List (Nat × PluginState)) (hm : MenuEntry.name ip.2.confSection ∈ order) :
    appendedActs order (ip :: rest) = appendedActs order rest := by
  simp only [appendedActs, List.filterMap_cons]
  rw [if_neg (fun hc => hc.2 hm)]

/-- A plugin with a dockwidget whose name is absent from the order list is
appended. -/
theorem appendedActs_cons_notmem (order : List MenuEntry) (ip : Nat × PluginState)
    (rest : List (Nat × PluginState)) (hd : ip.2.dock.isSome = true)
    (hm : MenuEntry.name ip.2.confSection ∉ order) :
    appendedActs order (ip :: rest)
      = MenuEntry.act ip.1 :: appendedActs order rest := by
  simp only [appendedActs, List.filterMap_cons]
  rw [if_pos ⟨hd, hm⟩]

/-- The appended tail only looks at membership of the plugins' name entries
in the order list. -/
theorem appendedActs_congr (order order2 : List MenuEntry) :
    ∀ rest : List (Nat × PluginState),
      (∀ ip ∈ rest, ip.2.dock.isSome = true →
        (MenuEntry.name ip.2.confSection ∈ order2
          ↔ MenuEntry.name ip.2.confSection ∈ order)) →
      appendedActs order2 rest = appendedActs order rest
  | [], _ => rfl
  | ip :: rest, h => by
    have ih := appendedActs_congr order order2 rest
      (fun ip2 hm hd => h ip2 (List.mem_cons_of_mem _ hm) hd)
    by_cases hd : ip.2.dock.isSome = true
    · have hiff := h ip (List.mem_cons_self ip rest) hd
      by_cases hm : MenuEntry.name ip.2.confSection ∈ order
      · rw [appendedActs_cons_mem order2 ip rest (hiff.mpr hm),
          appendedActs_cons_mem order ip rest hm]
        exact ih
      · rw [appendedActs_cons_notmem order2 ip rest hd (fun h2 => hm (hiff.mp h2)),
          appendedActs_cons_notmem order ip rest hd hm]
        rw [ih]
    · have hd2 : ip.2.dock.isSome = false := by
        cases h2 : ip.2.dock.isSome
        · rfl
        · exact absurd h2 hd
      rw [appendedActs_cons_nodock order2 ip rest hd2,
        appendedActs_cons_nodock order ip rest hd2]
      exact ih

/-- Appending an action entry to the order list does not change the appended
tail. -/
theorem appendedActs_append_act (order : List MenuEntry) (j : Nat)
    (rest : List (Nat × PluginState)) :
    appendedActs (order ++ [MenuEntry.act j]) rest = appendedActs order rest := by
  apply appendedActs_congr
  intro ip _ _
  constructor
  · intro hmem
    rcases List.mem_append.mp hmem with h2 | h2
    · exact h2
    · simp at h2
  · intro hmem
    exact List.mem_append.mpr (Or.inl hmem)

/-- The CONF_SECTIONs of the dockwidget-bearing plugins among the indexed
list are those of the underlying plugin list. -/
theorem dockSections_enumFromN :
    ∀ (l : List PluginState) (n : Nat),
      dockSections (enumFromN n l)
        = l.filterMap (fun p => if p.dock.isSome then some p.confSection else none)
  | [], _ => rfl
  | p :: ps, n => by
    have ih := dockSections_enumFromN ps (n + 1)
    simp only [dockSections] at ih
    simp only [enumFromN, dockSections, List.filterMap_cons, ih]

/-- A dockwidget-bearing plugin contributes its CONF_SECTION to
`dockSections`. -/
theorem mem_dockSections (ip : Nat × PluginState) (rest : List (Nat × PluginState))
    (hm : ip ∈ rest) (hd : ip.2.dock.isSome = true) :
    ip.2.confSection ∈ dockSections rest :=
  List.mem_filterMap.2 ⟨ip, hm, by rw [if_pos hd]⟩

/-- The plugin loop of create_plugins_menu computes exactly the claim-side
description: names in the order list are replaced in place by the action of
the matching dockwidget-bearing plugin, and the remaining dockwidget-bearing
plugins are appended at the end — provided the names in the order list and
the sections of the dockwidget-bearing plugins are distinct. -/
theorem processPlugins_eq :
    ∀ (ips : List (Nat × PluginState)) (order : List MenuEntry),
      (namesOf order).Nodup → (dockSections ips).Nodup →
      processPlugins ips order = order.map (replEntry ips) ++ appendedActs order ips
  | [], order, _, _ => by
    have hmap : order.map (replEntry []) = order.map id :=
      List.map_congr_left (fun e _ => replEntry_nil e)
    simp only [processPlugins, appendedActs, List.filterMap_nil, List.append_nil,
      hmap, List.map_id]
  | ip :: rest, order, hord, hsec => by
    rcases hdk : ip.2.dock with _ | d
    · have hd : ip.2.dock.isSome = false := by rw [hdk]; rfl
      have hsecEq : dockSections (ip :: rest) = dockSections rest := by
        simp [dockSections, List.filterMap_cons, hd]
      have hsec2 : (dockSections rest).Nodup := by
        rw [hsecEq] at hsec
        exact hsec
      simp only [processPlugins, hdk]
      rw [processPlugins_eq rest order hord hsec2]
      congr 1
      · exact List.map_congr_left (fun e _ => (replEntry_skip ip rest e hd).symm)
      · exact (appendedActs_cons_nodock order ip rest hd).symm
    · have hd : ip.2.dock.isSome = true := by rw [hdk]; rfl
      have hsecEq : dockSections (ip :: rest)
          = ip.2.confSection :: dockSections rest := by
        simp [dockSections, List.filterMap_cons, hd]
      have hsec2 : (dockSections rest).Nodup := by
        rw [hsecEq] at hsec
        exact hsec.of_cons
      have hnotin : ip.2.confSection ∉ dockSections rest := by
        rw [hsecEq] at hsec
        exact (List.nodup_cons.mp hsec).1
      simp only [processPlugins, hdk]
      rcases hres : replaceFirst (MenuEntry.act ip.1) ip.2.confSection order
        with _ | order2
      · dsimp only
        have hnm := replaceFirst_none_not_mem (MenuEntry.act ip.1)
          ip.2.confSection order hres
        have hord2 : (namesOf (order ++ [MenuEntry.act ip.1])).Nodup := by
          rw [namesOf_append_act]
          exact hord
        rw [processPlugins_eq rest (order ++ [MenuEntry.act ip.1]) hord2 hsec2]
        rw [List.map_append, appendedActs_append_act,
          appendedActs_cons_notmem order ip rest hd hnm]
        have hmap : order.map (replEntry rest) = order.map (replEntry (ip :: rest)) :=
          List.map_congr_left
            (fun e he => (replEntry_ne ip rest e (fun hee => hnm (hee ▸ he))).symm)
        rw [hmap]
        simp [List.append_assoc, replEntry]
      · dsimp only
        have hord2 : (namesOf order2).Nodup :=
          List.Nodup.sublist
            (replaceFirst_names_sublist (MenuEntry.act ip.1) ip.2.confSection rfl
              order order2 hres) hord
        rw [processPlugins_eq rest order2 hord2 hsec2]
        rw [replaceFirst_map ip rest hd order order2 hres hord]
        congr 1
        rw [appendedActs_cons_mem order ip rest
          (replaceFirst_some_mem (MenuEntry.act ip.1) ip.2.confSection order
            order2 hres)]
        apply appendedActs_congr
        intro ip2 hm2 hd2
        refine replaceFirst_mem_iff (MenuEntry.act ip.1) ip.2.confSection
          ip2.2.confSection ?_ ?_ order order2 hres
        · intro heq
          exact hnotin (heq ▸ mem_dockSections ip2 rest hm2 hd2)
        · intro hact
          exact MenuEntry.noConfusion hact

/-! Claim theorems. -/

/-- C9: calling `maximize_dockwidget(restore=True)` when no pane is
maximized (`_state_before_maximizing is None`) is a no-op: it returns
immediately and the whole plugin state — last-plugin reference, saved
pre-maximize state, every dockwidget's visibility and the main window's
central widget included — is unchanged. -/
theorem maximize_dockwidget_restore_noop (s : LayoutState)
    (h : s.stateBeforeMaximizing = none) :
    maximize_dockwidget s true = some s :=
  maximize_restore_of_none s h

/-- Witness for C9 at a concrete state. -/
theorem maximize_dockwidget_restore_noop_witness :
    baseState.stateBeforeMaximizing = none
    ∧ maximize_dockwidget baseState true = some baseState :=
  ⟨rfl, maximize_dockwidget_restore_noop baseState rfl⟩

/-- C8: `save_current_window_settings` never stores a negative window
position: the value written under `prefix + 'position'` is
`(x if x > 0 else 0, y if y > 0 else 0)`, whose coordinates are both
non-negative.  (The hypothesis that nothing is maximized keeps the
embedded `maximize_dockwidget(restore=True)` call on its no-op path.) -/
theorem save_position_nonneg (s : LayoutState) (pfx sect : String) (ns : Bool)
    (h : s.stateBeforeMaximizing = none) :
    ∃ s2, save_current_window_settings s pfx sect ns = some s2
      ∧ s2.conf.pairs sect (pfx ++ "position")
          = some (if s.main.pos.1 > 0 then s.main.pos.1 else 0,
                  if s.main.pos.2 > 0 then s.main.pos.2 else 0)
      ∧ 0 ≤ (if s.main.pos.1 > 0 then s.main.pos.1 else 0)
      ∧ 0 ≤ (if s.main.pos.2 > 0 then s.main.pos.2 else 0) := by
  rcases ns <;>
  · simp only [save_current_window_settings, Bool.false_eq_true, if_false, if_true]
    rw [maximize_restore_of_none]
    · refine ⟨_, rfl, ?_, ?_, ?_⟩
      · simp [ConfStore.setState, ConfStore.setBool, ConfStore.setPair]
      · split <;> omega
      · split <;> omega
    · exact h

/-- Witness for C8 at a concrete state. -/
theorem save_position_nonneg_witness :
    baseState.stateBeforeMaximizing = none
    ∧ ∃ s2, save_current_window_settings baseState "window/" "main" false = some s2
      ∧ s2.conf.pairs "main" ("window/" ++ "position")
          = some (if baseState.main.pos.1 > 0 then baseState.main.pos.1 else 0,
                  if baseState.main.pos.2 > 0 then baseState.main.pos.2 else 0)
      ∧ 0 ≤ (if baseState.main.pos.1 > 0 then baseState.main.pos.1 else 0)
      ∧ 0 ≤ (if baseState.main.pos.2 > 0 then baseState.main.pos.2 else 0) :=
  ⟨rfl, save_position_nonneg baseState "window/" "main" false rfl⟩

/-- C10: `toggle_lock` keeps the in-memory interface-locked flag and the
`panes_locked` config option of the `main` section equal: with `value=None`
the flag is negated, otherwise it is set to `value`; the new flag is written
to the configuration, and every dockable plugin with a dockwidget gets its
title bar removed (with floating disabled) when locking, or its title bar
set when unlocking. -/
theorem toggle_lock_spec (s : LayoutState) (value : Option Bool) :
    (toggle_lock s value).interfaceLocked
      = (match value with
         | none => !s.interfaceLocked
         | some v => v)
    ∧ (toggle_lock s value).conf.bools "main" "panes_locked"
        = some (toggle_lock s value).interfaceLocked
    ∧ ∀ p ∈ (toggle_lock s value).plugins, ∀ d : DockWidget, p.dock = some d →
        ((toggle_lock s value).interfaceLocked = true →
            d.hasTitleBar = false ∧ d.floating = false)
        ∧ ((toggle_lock s value).interfaceLocked = false → d.hasTitleBar = true) := by
  have hlk : (toggle_lock s value).interfaceLocked
      = (match value with
         | none => !s.interfaceLocked
         | some v => v) := by
    simp only [toggle_lock]
    split <;> rfl
  refine ⟨hlk, ?_, ?_⟩
  · rw [hlk]
    simp only [toggle_lock]
    split <;> simp [ConfStore.setBool]
  · intro p hp d hd
    rw [hlk]
    rcases value with _ | v
    · have hp2 : p ∈ s.plugins.map (applyDockLock (!s.interfaceLocked)) := by
        simp only [toggle_lock] at hp
        split at hp <;> exact hp
      simp only [List.mem_map] at hp2
      obtain ⟨p0, hmem, hp0⟩ := hp2
      exact applyDockLock_spec _ p0 d (by rw [hp0]; exact hd)
    · have hp2 : p ∈ s.plugins.map (applyDockLock v) := by
        simp only [toggle_lock] at hp
        split at hp <;> exact hp
      simp only [List.mem_map] at hp2
      obtain ⟨p0, hmem, hp0⟩ := hp2
      exact applyDockLock_spec _ p0 d (by rw [hp0]; exact hd)

/-- C6: for every stored window position (x, y), `load_window_settings`
replaces the stored position by the configured default position exactly when
the virtual screen width is less than x or the virtual screen height is less
than y; otherwise the stored position is returned unchanged, and the other
returned fields (hexstate, size, is_maximized, is_fullscreen) are the stored
values. -/
theorem load_window_settings_spec (s : LayoutState) (pfx sect : String)
    (sz pos dpos : Int × Int) (m f : Bool) (hx : Option QtWindowState)
    (h1 : s.conf.pairs sect (pfx ++ "size") = some sz)
    (h2 : s.conf.states sect (pfx ++ "state") = some hx)
    (h3 : s.conf.pairs sect (pfx ++ "position") = some pos)
    (h4 : s.conf.bools sect (pfx ++ "is_maximized") = some m)
    (h5 : s.conf.bools sect (pfx ++ "is_fullscreen") = some f)
    (h6 : s.confDefault.pairs sect (pfx ++ "position") = some dpos) :
    load_window_settings s pfx false sect
      = Except.ok (hx, sz,
          (if s.main.virtualScreenW < pos.1 ∨ s.main.virtualScreenH < pos.2
           then dpos else pos),
          m, f) := by
  simp only [load_window_settings, Bool.false_eq_true, if_false,
    h1, h2, h3, h4, h5, h6, Option.getD_some]
  by_cases hc : s.main.virtualScreenW < pos.1 ∨ s.main.virtualScreenH < pos.2
  · simp [hc]
  · simp [hc]

/-- Witness for C6 at a concrete state: the stored position fits the screen
and is returned unchanged. -/
theorem load_window_settings_spec_witness :
    load_window_settings c6State "window/" false "main"
      = Except.ok (none, (1200, 800),
          (if c6State.main.virtualScreenW < (10 : Int)
              ∨ c6State.main.virtualScreenH < (20 : Int)
           then (0, 0) else (10, 20)),
          false, false) :=
  load_window_settings_spec c6State "window/" "main" (1200, 800) (10, 20) (0, 0)
    false false none (by decide) (by decide) (by decide) (by decide) (by decide)
    (by decide)

/-- C4: when `set_window_settings` is given a non-empty hexstate whose
embedded version is rejected by `restoreState` for the current
WINDOW_STATE_VERSION (4), it does not apply the remaining settings: the
window state and `_maximized_flag` are untouched (only the resize/move that
precede the restore happen) and the layout reset `setup_layout(default=True)`
is recorded. -/
theorem set_window_settings_invalid (s : LayoutState) (hx : QtWindowState)
    (sz pos : Int × Int) (m f : Bool)
    (hrun : (s.windowSettingsAppliedOnFirstRun && s.firstSpyderRun) = false)
    (hver : hx.version ≠ WINDOW_STATE_VERSION) :
    set_window_settings s (some hx) sz pos m f
      = { s with
          main := { s.main with updatesEnabled := true, size := sz, pos := pos },
          windowSizeAttr := some sz,
          windowPositionAttr := some pos,
          log := s.log ++ [LayoutEvent.setupLayoutDefault] } := by
  simp only [set_window_settings, hrun, Bool.false_eq_true, if_false, if_neg hver]

/-- Witness for C4: a version-3 blob triggers the reset path. -/
theorem set_window_settings_invalid_witness :
    set_window_settings baseState (some cexHex3) (640, 480) (1, 2) false false
      = { baseState with
          main := { baseMain with updatesEnabled := true, size := (640, 480), pos := (1, 2) },
          windowSizeAttr := some (640, 480),
          windowPositionAttr := some (1, 2),
          log := [LayoutEvent.setupLayoutDefault] } :=
  set_window_settings_invalid baseState cexHex3 (640, 480) (1, 2) false false rfl
    (by decide)

/-- C3: `toggle_fullscreen` inverts the (truthy) fullscreen flag reported by
`get_fullscreen_flag` on every call; entering fullscreen records whether the
window was maximized and its normal geometry before switching to fullscreen
display; leaving fullscreen returns the window to normal display and
re-maximizes it exactly when the maximized-before-fullscreen flag is set;
the fullscreen action's icon is updated from the new flag after every
toggle.  (The hypothesis only excludes the state where the Windows-only
branch would read a `_saved_normal_geometry` that was never recorded, which
raises in Python; on Windows the fullscreen display is realised by the
frameless-window workaround instead of `showFullScreen`, hence the
`osIsNT = false` guard on the window-state conjunct.) -/
theorem toggle_fullscreen_spec (s : LayoutState)
    (hgeom : s.osIsNT = true → truthy s.fullscreenFlag = true →
      s.savedNormalGeometry.isSome = true) :
    ∃ s2, toggle_fullscreen s = some s2
      ∧ truthy (get_fullscreen_flag s2) = !(truthy (get_fullscreen_flag s))
      ∧ (truthy s.fullscreenFlag = false →
          s2.maximizedFlag = some s.main.isMaximized
          ∧ s2.savedNormalGeometry = some s.main.normalGeometry
          ∧ (s.osIsNT = false → s2.main.winState = WinState.fullScreen))
      ∧ (truthy s.fullscreenFlag = true →
          s2.main.winState
            = (if truthy s.maximizedFlag = true then WinState.maximized
               else WinState.normal))
      ∧ s2.fullscreenActionIcon
          = (if truthy s2.fullscreenFlag = true then FsIcon.windowNoFullscreen
             else FsIcon.windowFullscreen) := by
  cases hfs : truthy s.fullscreenFlag
  case false =>
    cases hnt : s.osIsNT
    case false =>
      simp only [toggle_fullscreen, get_fullscreen_flag, updateFullscreenAction,
        hfs, hnt, Bool.false_eq_true, if_false]
      refine ⟨_, rfl, by simp [truthy], ?_, ?_, by simp [truthy]⟩
      · intro _
        exact ⟨rfl, rfl, fun _ => rfl⟩
      · intro hcon
        exact hcon.elim
    case true =>
      simp only [toggle_fullscreen, get_fullscreen_flag, updateFullscreenAction,
        hfs, hnt, Bool.false_eq_true, if_false, if_true]
      refine ⟨_, rfl, by simp [truthy], ?_, ?_, by simp [truthy]⟩
      · intro _
        refine ⟨rfl, rfl, ?_⟩
        intro hcon
        exact Bool.noConfusion hcon
      · intro hcon
        exact hcon.elim
  case true =>
    cases hnt : s.osIsNT
    case false =>
      simp only [toggle_fullscreen, get_fullscreen_flag, updateFullscreenAction,
        hfs, hnt, Bool.false_eq_true, if_false, if_true]
      cases hmx : truthy s.maximizedFlag
      case false =>
        simp only [hmx, Bool.false_eq_true, if_false]
        refine ⟨_, rfl, by simp [truthy], ?_, ?_, by simp [truthy]⟩
        · intro hcon
          exact Bool.noConfusion hcon
        · intro _
          rfl
      case true =>
        simp only [hmx, if_true]
        refine ⟨_, rfl, by simp [truthy], ?_, ?_, by simp [truthy]⟩
        · intro hcon
          exact Bool.noConfusion hcon
        · intro _
          rfl
    case true =>
      obtain ⟨g, hg⟩ := Option.isSome_iff_exists.mp (hgeom hnt hfs)
      simp only [toggle_fullscreen, get_fullscreen_flag, updateFullscreenAction,
        hfs, hnt, hg, Bool.false_eq_true, if_false, if_true]
      cases hmx : truthy s.maximizedFlag
      case false =>
        simp only [hmx, Bool.false_eq_true, if_false]
        refine ⟨_, rfl, by simp [truthy], ?_, ?_, by simp [truthy]⟩
        · intro hcon
          exact Bool.noConfusion hcon
        · intro _
          rfl
      case true =>
        simp only [hmx, if_true]
        refine ⟨_, rfl, by simp [truthy], ?_, ?_, by simp [truthy]⟩
        · intro hcon
          exact Bool.noConfusion hcon
        · intro _
          rfl

/-- Witness for C3 at a concrete state: entering fullscreen on a non-Windows
system. -/
theorem toggle_fullscreen_spec_witness :
    ∃ s2, toggle_fullscreen baseState = some s2
      ∧ truthy (get_fullscreen_flag s2) = !(truthy (get_fullscreen_flag baseState))
      ∧ (truthy baseState.fullscreenFlag = false →
          s2.maximizedFlag = some baseState.main.isMaximized
          ∧ s2.savedNormalGeometry = some baseState.main.normalGeometry
          ∧ (baseState.osIsNT = false → s2.main.winState = WinState.fullScreen))
      ∧ (truthy baseState.fullscreenFlag = true →
          s2.main.winState
            = (if truthy baseState.maximizedFlag = true then WinState.maximized
               else WinState.normal))
      ∧ s2.fullscreenActionIcon
          = (if truthy s2.fullscreenFlag = true then FsIcon.windowNoFullscreen
             else FsIcon.windowFullscreen) :=
  toggle_fullscreen_spec baseState (by intro h; exact Bool.noConfusion h)

/-- C1 counterexample: starting from a main window that is currently
maximized, applying settings with `is_maximized = False` and
`is_fullscreen = False` (valid version-4 hexstate, outside the first-run
short-circuit) and reading them back yields `is_maximized = True`: the
setter never un-maximizes the window, so the read-back tuple differs from
the one that was applied. -/
theorem set_get_window_settings_cex :
    cexHex.version = WINDOW_STATE_VERSION
    ∧ (cexState1.windowSettingsAppliedOnFirstRun && cexState1.firstSpyderRun) = false
    ∧ get_window_settings
        (set_window_settings cexState1 (some cexHex) (800, 600) (0, 0) false false)
      ≠ some (cexHex, (800, 600), (0, 0), some false, false) := by
  decide

/-- C1 (amended): `get_window_settings` and `set_window_settings` are
symmetric for every settings tuple applied with a valid hexstate outside the
first-run short-circuit, provided the main window is in its normal state
(neither maximized nor fullscreen) when the settings are applied — the
setter only ever enters the fullscreen/maximized states, never leaves them.
In particular, when the tuple requests fullscreen the getter reports
`is_maximized` from the saved maximized-before-fullscreen flag, which the
setter filled with the applied value.  (The hexstate hypotheses say the blob
carries the current window-state version and one visibility entry per loaded
dockwidget.) -/
theorem set_get_window_settings_roundtrip (s : LayoutState) (hx : QtWindowState)
    (sz pos : Int × Int) (m f : Bool)
    (hrun : (s.windowSettingsAppliedOnFirstRun && s.firstSpyderRun) = false)
    (hver : hx.version = WINDOW_STATE_VERSION)
    (hlen : hx.dockVisibs.length = s.plugins.length)
    (hdocks : s.plugins.all (fun p => p.dock.isSome) = true)
    (hnormal : s.main.winState = WinState.normal) :
    get_window_settings (set_window_settings s (some hx) sz pos m f)
      = some (hx, sz, pos, some m, f) := by
  simp only [set_window_settings, hrun, Bool.false_eq_true, if_false, if_pos hver]
  rcases f <;> rcases m <;>
    simp only [applyRemaining, Bool.false_eq_true, if_false, if_true,
      get_window_settings, MainWindow.isFullScreen, MainWindow.isMaximized,
      qSaveState, saveVisibs_restore s.plugins hx.dockVisibs hlen hdocks,
      hnormal, Option.some.injEq, Prod.mk.injEq] <;>
    rw [← hver] <;>
    simp

/-- Witness for the amended C1 at a concrete state: a fullscreen maximized
tuple round-trips. -/
theorem set_get_window_settings_roundtrip_witness :
    get_window_settings
        (set_window_settings baseState
          (some { arrangement := 3, dockVisibs := [true, false],
                  version := WINDOW_STATE_VERSION })
          (1024, 768) (5, 6) true true)
      = some ({ arrangement := 3, dockVisibs := [true, false],
                version := WINDOW_STATE_VERSION },
              (1024, 768), (5, 6), some true, true) :=
  set_get_window_settings_roundtrip baseState
    { arrangement := 3, dockVisibs := [true, false], version := WINDOW_STATE_VERSION }
    (1024, 768) (5, 6) true true rfl rfl (by decide) (by decide) rfl

/-- C5: `quick_layout_switch` on an identifier whose stored hexstate is
`None` and which is not a default layout identifier shows a critical error
message and returns `None` (Python's implicit return) without applying any
window settings or layout — the returned state is the input state with only
the error message recorded; for a default layout identifier with a `None`
hexstate it regenerates that default layout (`setup_default_layouts`); on
success it returns the identifier it was given.  The hypotheses say the
quick-layout config block is present, the stored position fits the screen,
the maximize action is unchecked and every plugin has a dockwidget. -/
theorem quick_layout_switch_spec (s : LayoutState) (layoutId : String)
    (sz pos : Int × Int) (m f : Bool)
    (hunmax : s.maximizeActionChecked = false)
    (h1 : s.conf.pairs "quick_layouts" ("layout_" ++ layoutId ++ "/" ++ "size")
        = some sz)
    (h3 : s.conf.pairs "quick_layouts" ("layout_" ++ layoutId ++ "/" ++ "position")
        = some pos)
    (hpos : ¬ (s.main.virtualScreenW < pos.1 ∨ s.main.virtualScreenH < pos.2))
    (h4 : s.conf.bools "quick_layouts" ("layout_" ++ layoutId ++ "/" ++ "is_maximized")
        = some m)
    (h5 : s.conf.bools "quick_layouts" ("layout_" ++ layoutId ++ "/" ++ "is_fullscreen")
        = some f)
    (hdocks : s.plugins.all (fun p => p.dock.isSome) = true) :
    (s.conf.states "quick_layouts" ("layout_" ++ layoutId ++ "/" ++ "state")
          = some none →
      layoutId ∉ s.defaultLayouts →
      quick_layout_switch s layoutId
        = some ({ s with log := s.log ++ [LayoutEvent.criticalMessage] }, none))
    ∧ (s.conf.states "quick_layouts" ("layout_" ++ layoutId ++ "/" ++ "state")
          = some none →
      layoutId ∈ s.defaultLayouts →
      ∃ s2, quick_layout_switch s layoutId = some (s2, some layoutId)
        ∧ LayoutEvent.setupDefaultLayouts layoutId ∈ s2.log)
    ∧ ∀ hx : QtWindowState,
      s.conf.states "quick_layouts" ("layout_" ++ layoutId ++ "/" ++ "state")
          = some (some hx) →
      ∃ s2, quick_layout_switch s layoutId = some (s2, some layoutId) := by
  refine ⟨?_, ?_, ?_⟩
  · intro hstate hnotdef
    simp only [quick_layout_switch, hunmax, Bool.false_eq_true, if_false,
      load_window_settings, h1, hstate, h3, h4, h5, Option.getD_some,
      if_neg hpos, if_neg hnotdef]
  · intro hstate hdef
    simp only [quick_layout_switch, hunmax, Bool.false_eq_true, if_false,
      load_window_settings, h1, hstate, h3, h4, h5, Option.getD_some,
      if_neg hpos, if_pos hdef, finishQuickSwitch, hdocks, if_true]
    refine ⟨_, rfl, ?_⟩
    simp
  · intro hx hstate
    have hall : ((set_window_settings s (some hx) sz pos m f).plugins).all
        (fun p => p.dock.isSome) = true :=
      set_window_settings_all_docks s (some hx) sz pos m f hdocks
    simp only [quick_layout_switch, hunmax, Bool.false_eq_true, if_false,
      load_window_settings, h1, hstate, h3, h4, h5, Option.getD_some,
      if_neg hpos, finishQuickSwitch, hall, if_true]
    exact ⟨_, rfl⟩

/-- Witness for C5: the three paths at concrete states — custom id with
`None` hexstate errors out and returns `None`, default id regenerates the
default layout, valid hexstate returns the identifier. -/
theorem quick_layout_switch_spec_witness :
    (quick_layout_switch c5StateA "custom1"
        = some ({ c5StateA with log := [LayoutEvent.criticalMessage] }, none))
    ∧ (∃ s2, quick_layout_switch c5StateB "Spyder Default Layout"
          = some (s2, some "Spyder Default Layout")
        ∧ LayoutEvent.setupDefaultLayouts "Spyder Default Layout" ∈ s2.log)
    ∧ (∃ s2, quick_layout_switch c5StateC "custom2" = some (s2, some "custom2")) := by
  refine ⟨?_, ?_, ?_⟩
  · exact (quick_layout_switch_spec c5StateA "custom1" (800, 600) (0, 0) false false
      rfl (by decide) (by decide) (by decide) (by decide) (by decide) (by decide)).1
      (by decide) (by decide)
  · exact (quick_layout_switch_spec c5StateB "Spyder Default Layout" (800, 600) (0, 0)
      false false rfl (by decide) (by decide) (by decide) (by decide) (by decide)
      (by decide)).2.1 (by decide) (by decide)
  · exact (quick_layout_switch_spec c5StateC "custom2" (800, 600) (0, 0) false false
      rfl (by decide) (by decide) (by decide) (by decide) (by decide) (by decide)).2.2
      cexHex (by decide)

/-- C2 counterexample: with no plugin holding the focus, a stale
`_last_plugin` reference (plugin 0 from an earlier maximize) and the Editor
registered as plugin 1, `maximize_dockwidget` maximizes plugin 0, not the
Editor: the claim's "focused plugin (or the Editor as fallback)" does not
describe the code, which prefers the remembered last plugin over the
Editor. -/
theorem maximize_dockwidget_cex :
    cexState2.focusPluginIdx = none
    ∧ cexState2.editorIdx = some 1
    ∧ cexState2.stateBeforeMaximizing = none
    ∧ (maximize_dockwidget cexState2 false).map (fun s1 => s1.main.centralWidget)
        = some (some 0)
    ∧ (maximize_dockwidget cexState2 false).map (fun s1 => s1.main.centralWidget)
        ≠ some (some 1) := by
  decide

/-- C2 (amended): `maximize_dockwidget` toggles between exactly two states.
When no pane is maximized (`_state_before_maximizing is None`) and restore
is False, it saves the current window state, hides every dockable plugin's
dockwidget, and maximizes the target plugin — the plugin holding the focus,
or else the remembered last plugin, or else the Editor (the claim's
"focused plugin or Editor" misses the middle fallback) — as the central
widget with its maximized flag set.  A second call (with any restore value)
restores the window state saved before maximizing (arrangement and dock
visibilities), clears the plugin's maximized flag, resets the saved
pre-maximize state to `None` and clears the central widget. -/
theorem maximize_dockwidget_toggle (s : LayoutState) (i : Nat) (r : Bool)
    (h0 : s.stateBeforeMaximizing = none)
    (hdocks : s.plugins.all (fun p => p.dock.isSome) = true)
    (htarget : optOr (optOr (focusedIn s) s.lastPlugin) s.editorIdx = some i)
    (hlen : i < s.plugins.length) :
    ∃ s1, maximize_dockwidget s false = some s1
      ∧ s1.stateBeforeMaximizing = some (qSaveState s WINDOW_STATE_VERSION)
      ∧ s1.plugins.all (fun p => !(dockVisible p)) = true
      ∧ s1.main.centralWidget = some i
      ∧ (s1.plugins[i]?).map PluginState.ismaximized = some true
      ∧ s1.lastPlugin = some i
      ∧ ∃ s2, maximize_dockwidget s1 r = some s2
          ∧ s2.main.arrangement = s.main.arrangement
          ∧ saveVisibs s2.plugins = saveVisibs s.plugins
          ∧ (s2.plugins[i]?).map PluginState.ismaximized = some false
          ∧ s2.stateBeforeMaximizing = none
          ∧ s2.main.centralWidget = none := by
  obtain ⟨q, hqe⟩ : ∃ q, s.plugins[i]? = some q :=
    ⟨s.plugins[i], List.getElem?_eq_getElem hlen⟩
  have hqmem : q ∈ s.plugins := List.getElem?_mem hqe
  have hqdock : q.dock.isSome = true := List.all_eq_true.mp hdocks q hqmem
  obtain ⟨dq, hdq⟩ := Option.isSome_iff_exists.mp hqdock
  have hstep : maximize_dockwidget s false = maximizeTarget
      { s with
        stateBeforeMaximizing := some (qSaveState s WINDOW_STATE_VERSION),
        plugins := s.plugins.map hideDock,
        lastPlugin := optOr (focusedIn s) s.lastPlugin } i := by
    simp only [maximize_dockwidget, h0, Bool.false_eq_true, if_false, hdocks, if_true]
    rcases hopt : optOr (focusedIn s) s.lastPlugin with _ | j
    · rw [hopt] at htarget
      rcases hed : s.editorIdx with _ | e
      · rw [hed] at htarget
        simp only [optOr] at htarget
        exact Option.noConfusion htarget
      · rw [hed] at htarget
        simp only [optOr, Option.some.injEq] at htarget
        subst htarget
        rfl
    · rw [hopt] at htarget
      simp only [optOr, Option.some.injEq] at htarget
      subst htarget
      rfl
  have hp1 : (s.plugins.map hideDock)[i]? = some (hideDock q) := by
    simp [List.getElem?_map, hqe]
  have hd1 : (hideDock q).dock = some { dq with visible := false } := by
    simp [hideDock, hdq]
  obtain ⟨s1, hs1eq, hsbm1, hplugins1, hcw1, harr1, hlast1, hed1, hout1⟩ :=
    maximizeTarget_props
      { s with
        stateBeforeMaximizing := some (qSaveState s WINDOW_STATE_VERSION),
        plugins := s.plugins.map hideDock,
        lastPlugin := optOr (focusedIn s) s.lastPlugin } i (hideDock q)
      { dq with visible := false } hp1 hd1
  have halls1 : s1.plugins.all (fun p => p.dock.isSome) = true := by
    rw [hplugins1]
    exact all_set_of_all _ _ i _ (all_isSome_map_hide s.plugins hdocks) rfl
  have him1 : (s1.plugins[i]?).map PluginState.ismaximized = some true := by
    rw [hplugins1, List.getElem?_set_eq_of_lt]
    · rfl
    · simpa using hlen
  have hp2e : s1.plugins[i]? = some
      { hideDock q with
        dock := some { dq with
          visible := false, toggleViewEnabled := false, hasWidget := false },
        ismaximized := true,
        widgetVisible := true } := by
    rw [hplugins1]
    exact List.getElem?_set_eq_of_lt _ (by simpa using hlen)
  obtain ⟨s2, hs2eq, harr2, hplugins2, hsbm2, hcw2⟩ :=
    maximize_restore_props s1 (qSaveState s WINDOW_STATE_VERSION) i
      { hideDock q with
        dock := some { dq with
          visible := false, toggleViewEnabled := false, hasWidget := false },
        ismaximized := true,
        widgetVisible := true }
      { dq with visible := false, toggleViewEnabled := false, hasWidget := false }
      r hsbm1 hlast1 hp2e rfl rfl
  have hsv : saveVisibs s2.plugins = saveVisibs s.plugins := by
    rw [hplugins2, saveVisibs_restore]
    · rfl
    · simp only [qSaveState, saveVisibs, List.length_map, List.length_set, hplugins1]
    · exact all_set_of_all _ _ _ _ halls1 rfl
  have him2 : (s2.plugins[i]?).map PluginState.ismaximized = some false := by
    rw [hplugins2, restoreVisibs_getElem_ismaximized, List.getElem?_set_eq_of_lt]
    · rfl
    · rw [hplugins1]
      simpa using hlen
  refine ⟨s1, hstep ▸ hs1eq, hsbm1, ?_, hcw1, him1, hlast1,
    s2, hs2eq, harr2, hsv, him2, hsbm2, hcw2⟩
  rw [hplugins1]
  exact all_set_of_all _ _ _ _ (all_hidden_map_hide s.plugins) rfl

/-- Witness for the amended C2 at a concrete state: the Editor (plugin 0 of
`baseState`, with neither a focused plugin nor a remembered last plugin) is
maximized and then restored. -/
theorem maximize_dockwidget_toggle_witness :
    ∃ s1, maximize_dockwidget baseState false = some s1
      ∧ s1.stateBeforeMaximizing = some (qSaveState baseState WINDOW_STATE_VERSION)
      ∧ s1.plugins.all (fun p => !(dockVisible p)) = true
      ∧ s1.main.centralWidget = some 0
      ∧ (s1.plugins[0]?).map PluginState.ismaximized = some true
      ∧ s1.lastPlugin = some 0
      ∧ ∃ s2, maximize_dockwidget s1 true = some s2
          ∧ s2.main.arrangement = baseState.main.arrangement
          ∧ saveVisibs s2.plugins = saveVisibs baseState.plugins
          ∧ (s2.plugins[0]?).map PluginState.ismaximized = some false
          ∧ s2.stateBeforeMaximizing = none
          ∧ s2.main.centralWidget = none :=
  maximize_dockwidget_toggle baseState 0 true rfl (by decide) (by decide)
    (by decide)

/-- C7: `create_plugins_menu` populates the panes menu with the toggle-view
action of every dockable plugin: plugins whose CONF_SECTION appears in the
fixed order list take that list's position (`replEntry` replaces each name
slot in place), all other plugins with a dockwidget are appended after them
in plugin order (`appendedActs`), plugins whose dockwidget is `None` are
skipped, and each added action's checked state equals its dockwidget's
current visibility.  The hypothesis asks the dockwidget-bearing plugins to
have pairwise distinct CONF_SECTIONs, which holds for the registry (one
configuration section per plugin). -/
theorem create_plugins_menu_spec (s : LayoutState)
    (hsec : (s.plugins.filterMap
        (fun p => if p.dock.isSome then some p.confSection else none)).Nodup) :
    (create_plugins_menu s).pluginsMenu = s.pluginsMenu ++ pluginsMenuSpec s
    ∧ ∀ p ∈ (create_plugins_menu s).plugins, ∀ d : DockWidget, p.dock = some d →
        p.toggleChecked = d.visible := by
  constructor
  · have hord : (namesOf initOrder).Nodup := by decide
    have hsec2 : (dockSections (enumFromN 0 s.plugins)).Nodup := by
      rw [dockSections_enumFromN]
      exact hsec
    simp only [create_plugins_menu]
    rw [processPlugins_eq (enumFromN 0 s.plugins) initOrder hord hsec2]
    rw [List.filterMap_append]
    rfl
  · intro p hp d hd
    simp only [create_plugins_menu, List.mem_map] at hp
    obtain ⟨p0, hmem, hp0⟩ := hp
    subst hp0
    rcases hdk : p0.dock with _ | d0
    · simp only [setToggleFromDock, hdk] at hd
      exact Option.noConfusion hd
    · simp only [setToggleFromDock, hdk, Option.some.injEq] at hd
      subst hd
      simp [setToggleFromDock, hdk]

/-- Witness for C7 at a concrete state: the `baseState` plugins (editor and
internal console, both with visible dockwidgets). -/
theorem create_plugins_menu_spec_witness :
    (create_plugins_menu baseState).pluginsMenu
        = baseState.pluginsMenu ++ pluginsMenuSpec baseState
    ∧ ∀ p ∈ (create_plugins_menu baseState).plugins, ∀ d : DockWidget,
        p.dock = some d → p.toggleChecked = d.visible :=
  create_plugins_menu_spec baseState (by decide)

end SpyderLayout
